import Mathlib

/-!
Shallow embedding of the rcs-hvac-controller sources (`zones.py`,
`rcs_controller.py`, `mqtt_client.py`).

Wire records are modelled as lists of characters (the device speaks plain
ASCII), Python floats as rationals, the module-level zone dictionaries as a
list of zones with distinct indices, and the serial link as the value that
would be written to it.  An uncaught Python exception is modelled by the
error case of `Except`; an error branch that only logs is a normal return.
The serial connection is modelled as open (the `self.conn` guards in the
source are only false after shutdown).
-/

/-- Character list of a string literal; wire tokens are lists of characters. -/
def lc (s : String) : List Char := s.data

/-- Whitespace for Python `bytes.split()` (no separator argument). -/
def isWs (c : Char) : Bool :=
  c = ' ' || c = '\t' || c = '\n' || c = '\r' || c = '\x0b' || c = '\x0c'

def splitWsAux : List Char → List Char → List (List Char)
  | [], acc => if acc = [] then [] else [acc.reverse]
  | c :: cs, acc =>
    if isWs c then
      if acc = [] then splitWsAux cs [] else acc.reverse :: splitWsAux cs []
    else splitWsAux cs (c :: acc)

/-- Python `record.split()`: split on runs of whitespace, no empty tokens. -/
def tokenize (cs : List Char) : List (List Char) := splitWsAux cs []

/-- Python `tok.startswith(pre)` (first argument is the sought front part). -/
def startsWithTok : List Char → List Char → Bool
  | [], _ => true
  | _ :: _, [] => false
  | p :: ps, c :: cs => p = c && startsWithTok ps cs

def isDigitCh (c : Char) : Bool := 48 ≤ c.toNat && c.toNat ≤ 57

def allDigits (cs : List Char) : Bool := cs.all isDigitCh

def digitsToNat (cs : List Char) : Nat :=
  cs.foldl (fun a c => 10 * a + (c.toNat - 48)) 0

/-- Model of Python `int(s)` on a token: an optional sign followed by one or
more decimal digits parses; anything else raises `ValueError` (`none`). -/
def parsePyInt : List Char → Option Int
  | '-' :: rest =>
    if rest ≠ [] ∧ allDigits rest then some (-(digitsToNat rest : Int)) else none
  | '+' :: rest =>
    if rest ≠ [] ∧ allDigits rest then some ((digitsToNat rest : Int)) else none
  | cs =>
    if cs ≠ [] ∧ allDigits cs then some ((digitsToNat cs : Int)) else none

def splitOnDotAux : List Char → List Char → List (List Char)
  | [], acc => [acc.reverse]
  | c :: cs, acc =>
    if c = '.' then acc.reverse :: splitOnDotAux cs []
    else splitOnDotAux cs (c :: acc)

def parsePyFloatMag (cs : List Char) : Option ℚ :=
  match splitOnDotAux cs [] with
  | [a] => if a ≠ [] ∧ allDigits a then some ((digitsToNat a : ℚ)) else none
  | [a, b] =>
    if (a ≠ [] ∨ b ≠ []) ∧ allDigits a ∧ allDigits b then
      some ((digitsToNat a : ℚ) + (digitsToNat b : ℚ) / ((10 : ℚ) ^ b.length))
    else none
  | _ => none

/-- Model of Python `float(s)` on a decimal token (optional sign, digits,
optional fraction); anything else raises `ValueError` (`none`). -/
def parsePyFloat : List Char → Option ℚ
  | '-' :: rest => (parsePyFloatMag rest).map (fun q => -q)
  | '+' :: rest => parsePyFloatMag rest
  | cs => parsePyFloatMag cs

def natToCharsCore : Nat → Nat → List Char → List Char
  | 0, _, acc => acc
  | fuel + 1, n, acc =>
    let acc1 := Char.ofNat (48 + n % 10) :: acc
    if n < 10 then acc1 else natToCharsCore fuel (n / 10) acc1

def natToChars (n : Nat) : List Char := natToCharsCore (n + 1) n []

/-- Decimal rendering of an integer, as Python `str`/`format` produce it. -/
def intToChars (i : Int) : List Char :=
  if i < 0 then '-' :: natToChars i.natAbs else natToChars i.natAbs

/-- Python `format(v, ".0f")` rounding: to the nearest integer, ties to the
even neighbour, computed on the exact rational value. -/
def pyRound0 (v : ℚ) : Int :=
  let f := Int.fdiv v.num (v.den : Int)
  let rnum := v.num - f * (v.den : Int)
  if 2 * rnum < (v.den : Int) then f
  else if (v.den : Int) < 2 * rnum then f + 1
  else if f % 2 = 0 then f else f + 1

/-- zones.py: class `Zone`.  Optional fields start unknown (`None`). -/
structure Zone where
  name : String
  zone_index : Int
  entity_name : String
  current_temperature : Option ℚ
  current_setpoint : Option ℚ
  current_mode : Option String
  current_action : Option String
  is_heating : Bool
  is_damper_open : Bool
  modified_since_last_sync : Bool
deriving DecidableEq, Repr

/-- zones.py: `Zone.__init__` — fresh zone with derived entity name. -/
def mkZone (name : String) (zone_index : Int) : Zone :=
  { name := name
    zone_index := zone_index
    entity_name := "zone_" ++ String.mk (intToChars zone_index)
    current_temperature := none
    current_setpoint := none
    current_mode := none
    current_action := none
    is_heating := false
    is_damper_open := false
    modified_since_last_sync := false }

/-- The module-level zone dictionaries, as the list of registered zones
(indices are unique by construction in `create_zones_from_config`). -/
abbrev Registry := List Zone

/-- zones.py: `get_zone_by_index`. -/
def get_zone_by_index (reg : Registry) (i : Int) : Option Zone :=
  reg.find? (fun z => z.zone_index == i)

/-- zones.py: `get_zone_by_entity_name`. -/
def get_zone_by_entity_name (reg : Registry) (n : String) : Option Zone :=
  reg.find? (fun z => z.entity_name == n)

/-- In-place mutation of the zone object with index `i`. -/
def updateZone (reg : Registry) (i : Int) (f : Zone → Zone) : Registry :=
  reg.map (fun z => if z.zone_index = i then f z else z)

/-- rcs_controller.py:154-156 — write `current_temperature` only when the
new value differs, marking the zone dirty. -/
def setCurrentTemperature (z : Zone) (t : ℚ) : Zone :=
  if z.current_temperature ≠ some t then
    { z with current_temperature := some t, modified_since_last_sync := true }
  else z

/-- rcs_controller.py:92-94 and 167-169 — change-aware setpoint write. -/
def setCurrentSetpoint (z : Zone) (sp : ℚ) : Zone :=
  if z.current_setpoint ≠ some sp then
    { z with current_setpoint := some sp, modified_since_last_sync := true }
  else z

/-- rcs_controller.py:113-115 and 179-181 — change-aware mode write. -/
def setCurrentMode (z : Zone) (m : String) : Zone :=
  if z.current_mode ≠ some m then
    { z with current_mode := some m, modified_since_last_sync := true }
  else z

/-- rcs_controller.py:239-241 — change-aware action write. -/
def setCurrentAction (z : Zone) (a : String) : Zone :=
  if z.current_action ≠ some a then
    { z with current_action := some a, modified_since_last_sync := true }
  else z

/-- rcs_controller.py:224-226 — change-aware heating-flag write. -/
def setIsHeating (z : Zone) (b : Bool) : Zone :=
  if z.is_heating ≠ b then
    { z with is_heating := b, modified_since_last_sync := true }
  else z

/-- rcs_controller.py:227-229 — change-aware damper-flag write. -/
def setIsDamperOpen (z : Zone) (b : Bool) : Zone :=
  if z.is_damper_open ≠ b then
    { z with is_damper_open := b, modified_since_last_sync := true }
  else z

/-- rcs_controller.py:23-28. -/
def MODE_MAP_MQTT2RCS : List (String × String) :=
  [(("off"), ("O")), (("heat"), ("H")), (("cool"), ("C")), (("auto"), ("A"))]

/-- rcs_controller.py:29-35 (note the source maps the letter A to the
string "Auto" and I to `None`; the map is declared but the Type 1 decoder
below never applies it to the stored mode). -/
def MODE_MAP_RCS2MQTT : List (String × Option String) :=
  [(("O"), some ("off")), (("H"), some ("heat")), (("C"), some ("cool")),
   (("A"), some ("Auto")), (("I"), none)]

/-- rcs_controller.py:123 — first status request, written with `\r`. -/
def statusRequest1 : String := "A=1 R=1\r"

/-- rcs_controller.py:126 — second status request, written with `\r`. -/
def statusRequest2 : String := "A=1 R=2\r"

/-- rcs_controller.py:78-94 `RCSController.set_setpoint`.  Returns the
updated registry and the byte string written to the serial link (`none`
when nothing is sent).  The source writes
`f"A=1 Z={zone.zone_index} SP={setpoint:.0f}"` with no terminator and then
applies the unrounded value to the zone if it differs. -/
def set_setpoint (reg : Registry) (entity : String) (setpoint : ℚ) :
    Registry × Option String :=
  if setpoint < 40 ∨ 99 < setpoint then (reg, none)
  else
    match get_zone_by_entity_name reg entity with
    | none => (reg, none)
    | some zone =>
      let cmd := "A=1 Z=" ++ String.mk (intToChars zone.zone_index)
        ++ " SP=" ++ String.mk (intToChars (pyRound0 setpoint))
      (updateZone reg zone.zone_index (fun w => setCurrentSetpoint w setpoint),
        some cmd)

/-- rcs_controller.py:96-115 `RCSController.set_mode`.  The source computes
`rcs_mode = MODE_MAP_MQTT2RCS[mode]` and checks it, but the command string
interpolates `mode` itself: `f"A=1 Z={zone.zone_index} M={mode}"`, again
with no terminator. -/
def set_mode (reg : Registry) (entity : String) (mode : String) :
    Registry × Option String :=
  if (MODE_MAP_MQTT2RCS.lookup mode).isNone then (reg, none)
  else
    match get_zone_by_entity_name reg entity with
    | none => (reg, none)
    | some zone =>
      let cmd := "A=1 Z=" ++ String.mk (intToChars zone.zone_index)
        ++ " M=" ++ mode
      (updateZone reg zone.zone_index (fun w => setCurrentMode w mode),
        some cmd)

/-- rcs_controller.py:133-190 `RCSController._process_status_type_1`, one
token at a time.  The second match arm of the source compares tokens
against the literal text "self.TEMP_PREFIX" (and slices off its 16-character
length), so a real `T=` token never reaches it.  A `break` in the source
leaves the token loop and therefore ends the record; it is modelled by
returning the registry as it stands. -/
def processT1Aux : Registry → Option Int → List (List Char) →
    Except String Registry
  | reg, _, [] => .ok reg
  | reg, cur, p :: rest =>
    if startsWithTok (lc ("Z=")) p then
      match parsePyInt (p.drop 2) with
      | none => .error ("ValueError")
      | some zi =>
        match get_zone_by_index reg zi with
        | none => processT1Aux reg none rest
        | some _ => processT1Aux reg (some zi) rest
    else if startsWithTok (lc ("self.TEMP_PREFIX")) p then
      match cur with
      | none => .ok reg
      | some zi =>
        match parsePyFloat (p.drop 16) with
        | none => .ok reg
        | some t =>
          processT1Aux (updateZone reg zi (fun w => setCurrentTemperature w t))
            cur rest
    else if startsWithTok (lc ("SP=")) p then
      match cur with
      | none => .ok reg
      | some zi =>
        match parsePyFloat (p.drop 3) with
        | none => .ok reg
        | some sp =>
          processT1Aux (updateZone reg zi (fun w => setCurrentSetpoint w sp))
            cur rest
    else if startsWithTok (lc ("M=")) p then
      match cur with
      | none => .ok reg
      | some zi =>
        let mode := String.mk (p.drop 2)
        if (MODE_MAP_RCS2MQTT.lookup mode).isNone then .ok reg
        else
          processT1Aux (updateZone reg zi (fun w => setCurrentMode w mode))
            cur rest
    else if startsWithTok (lc ("FM=")) p then
      match cur with
      | none => .ok reg
      | some _ => processT1Aux reg cur rest
    else processT1Aux reg cur rest

/-- Decode a whole Type 1 status record against the registry. -/
def process_status_type_1 (reg : Registry) (record : String) :
    Except String Registry :=
  processT1Aux reg none (tokenize (lc record))

/-- rcs_controller.py:193-246 `RCSController._process_status_type_2`, one
token at a time.  `hc` is the `is_hvac_heating` context set by `H1A=`
tokens.  Every logged error branch of the source ends with `break`, which
leaves the token loop; the heating/damper flags are written before the
mode consistency check, so the "heating while off" branch keeps them. -/
def processT2Aux : Registry → Option Bool → List (List Char) →
    Except String Registry
  | reg, _, [] => .ok reg
  | reg, hc, p :: rest =>
    if startsWithTok (lc ("H1A=")) p then
      match parsePyInt (p.drop 4) with
      | none => .error ("ValueError")
      | some n =>
        if n = 0 ∨ n = 1 then processT2Aux reg (some (n == 1)) rest
        else .ok reg
    else if startsWithTok (lc ("D")) p then
      match hc with
      | none => .ok reg
      | some heatActive =>
        match parsePyInt ((p.drop 1).take 1) with
        | none => .error ("ValueError")
        | some zi =>
          match get_zone_by_index reg zi with
          | none => .ok reg
          | some z =>
            match parsePyInt (p.drop 3) with
            | none => .error ("ValueError")
            | some ds =>
              if ds = 0 ∨ ds = 1 then
                let dOpen := ds == 0
                let zHeat := dOpen && heatActive
                let z1 := setIsDamperOpen (setIsHeating z zHeat) dOpen
                if z1.current_mode = some ("off") then
                  if zHeat then .ok (updateZone reg zi (fun _ => z1))
                  else
                    processT2Aux
                      (updateZone reg zi (fun _ => setCurrentAction z1 ("off")))
                      hc rest
                else
                  processT2Aux
                    (updateZone reg zi (fun _ =>
                      setCurrentAction z1
                        (if zHeat then ("heating") else ("idle"))))
                    hc rest
              else .ok reg
    else processT2Aux reg hc rest

/-- Decode a whole Type 2 status record against the registry. -/
def process_status_type_2 (reg : Registry) (record : String) :
    Except String Registry :=
  processT2Aux reg none (tokenize (lc record))

/-- mqtt_client.py:166-171 — the per-zone state payload. -/
structure StatusEntry where
  setpoint : Option ℚ
  mode : Option String
  temperature : Option ℚ
  action : Option String
deriving DecidableEq, Repr

def statusEntry (z : Zone) : StatusEntry :=
  { setpoint := z.current_setpoint
    mode := z.current_mode
    temperature := z.current_temperature
    action := z.current_action }

/-- mqtt_client.py:161-177 `MQTTClient.publish_all_zone_status`: skip a
zone unless it is dirty or `force` is set; publish the selected zones'
entries and clear their dirty flags.  Returns the registry afterwards and
the list of published payloads in iteration order. -/
def publish_all_zone_status : Registry → Bool → Registry × List StatusEntry
  | [], _ => ([], [])
  | z :: rest, force =>
    let r := publish_all_zone_status rest force
    if z.modified_since_last_sync = false ∧ force = false then
      (z :: r.1, r.2)
    else
      ({ z with modified_since_last_sync := false } :: r.1,
        statusEntry z :: r.2)

/-- True when the last byte of an outbound record is a carriage return. -/
def endsWithCR (s : String) : Bool := s.data.getLast? == some '\r'

/-- Concrete fresh registry entry for zone 2 used by the record-level
evaluations. -/
def zoneTwoFresh : Zone := mkZone ("Zone 2") 2

/-- Zone 2 as it stands after the first Type 1 record of the evaluation
below: raw mode letter stored, temperature still unknown. -/
def zoneTwoAfterT1 : Zone :=
  { zoneTwoFresh with
      current_setpoint := some 70
      current_mode := some ("H")
      modified_since_last_sync := true }

deriving instance DecidableEq for Except

/-! Helper facts about the change-aware setters: each stores the requested
value and leaves the unrelated fields alone. -/

theorem setIsHeating_heating (z : Zone) (b : Bool) :
    (setIsHeating z b).is_heating = b := by
  simp only [setIsHeating]; split <;> simp_all

theorem setIsHeating_damper (z : Zone) (b : Bool) :
    (setIsHeating z b).is_damper_open = z.is_damper_open := by
  simp only [setIsHeating]; split <;> rfl

theorem setIsHeating_mode (z : Zone) (b : Bool) :
    (setIsHeating z b).current_mode = z.current_mode := by
  simp only [setIsHeating]; split <;> rfl

theorem setIsDamperOpen_damper (z : Zone) (b : Bool) :
    (setIsDamperOpen z b).is_damper_open = b := by
  simp only [setIsDamperOpen]; split <;> simp_all

theorem setIsDamperOpen_heating (z : Zone) (b : Bool) :
    (setIsDamperOpen z b).is_heating = z.is_heating := by
  simp only [setIsDamperOpen]; split <;> rfl

theorem setIsDamperOpen_mode (z : Zone) (b : Bool) :
    (setIsDamperOpen z b).current_mode = z.current_mode := by
  simp only [setIsDamperOpen]; split <;> rfl

theorem setCurrentAction_action (z : Zone) (a : String) :
    (setCurrentAction z a).current_action = some a := by
  simp only [setCurrentAction]; split <;> simp_all

theorem setCurrentAction_heating (z : Zone) (a : String) :
    (setCurrentAction z a).is_heating = z.is_heating := by
  simp only [setCurrentAction]; split <;> rfl

theorem setCurrentAction_damper (z : Zone) (a : String) :
    (setCurrentAction z a).is_damper_open = z.is_damper_open := by
  simp only [setCurrentAction]; split <;> rfl

/-- Claim C1: evaluation of the Type 1 decoder on `Z=2 T=71 SP=70 M=H`
against a fresh registry containing zone 2.  The setpoint is stored and
marked dirty, but the temperature is NOT stored (the source compares the
token against the literal text "self.TEMP_PREFIX" instead of the `T=`
constant), the stored mode is the raw wire letter "H" rather than the
mapped value "heat", and a subsequent `M=I` token overwrites the mode with
"I" instead of leaving it unmodified. -/
theorem type1_record_code_divergence :
    process_status_type_1 [zoneTwoFresh] ("Z=2 T=71 SP=70 M=H\r")
        = .ok [zoneTwoAfterT1]
      ∧ zoneTwoAfterT1.current_temperature = none
      ∧ zoneTwoAfterT1.current_setpoint = some 70
      ∧ zoneTwoAfterT1.current_mode = some ("H")
      ∧ zoneTwoAfterT1.current_mode ≠ some ("heat")
      ∧ zoneTwoAfterT1.modified_since_last_sync = true
      ∧ process_status_type_1 [zoneTwoAfterT1] ("Z=2 M=I\r")
          = .ok [{ zoneTwoAfterT1 with current_mode := some ("I") }] := by
  decide

/-- Claim C2, counterexample: decoding `H1A=1 D2=0` with zone 2 in mode
"heat" sets `current_action` to "heating", not "heat" as the claim
states. -/
theorem type2_action_string_counterexample :
    process_status_type_2 [{ zoneTwoFresh with current_mode := some ("heat") }]
        ("H1A=1 D2=0\r")
      = .ok [{ zoneTwoFresh with
          current_mode := some ("heat"), is_heating := true,
          is_damper_open := true, current_action := some ("heating"),
          modified_since_last_sync := true }]
    ∧ (some ("heating") : Option String) ≠ some ("heat") := by
  decide

/-- Step lemma: a well-formed `D2=0` damper token with a heat-call context
applies the derived flags and action to zone 2 and continues with the rest
of the record. -/
theorem damperStepD2 (reg : Registry) (z : Zone) (hA : Bool)
    (rest : List (List Char))
    (hz : get_zone_by_index reg 2 = some z)
    (hm : z.current_mode ≠ some ("off")) :
    processT2Aux reg (some hA) (lc ("D2=0") :: rest)
      = processT2Aux
          (updateZone reg 2 (fun _ =>
            setCurrentAction (setIsDamperOpen (setIsHeating z hA) true)
              (if hA then ("heating") else ("idle"))))
          (some hA) rest := by
  have h1 : startsWithTok (lc ("H1A=")) (lc ("D2=0")) = false := by decide
  have h2 : startsWithTok (lc ("D")) (lc ("D2=0")) = true := by decide
  have h3 : parsePyInt (((lc ("D2=0")).drop 1).take 1) = some 2 := by decide
  have h4 : parsePyInt ((lc ("D2=0")).drop 3) = some 0 := by decide
  have hmode : (setIsDamperOpen (setIsHeating z hA) true).current_mode
      = z.current_mode := by
    rw [setIsDamperOpen_mode, setIsHeating_mode]
  rw [List.drop_one] at h3
  simp [processT2Aux, h1, h2, h3, h4, hz, hmode, hm]

/-- Claim C2 (amended): decoding `H1A=1 D2=0` when zone 2's prior mode is
not "off" sets `is_damper_open := true`, `is_heating := true` and
`current_action := "heating"` (the source's action string, not "heat");
decoding `H1A=0 D2=0` sets `is_heating := false` and
`current_action := "idle"`. -/
theorem type2_heat_damper_decode (z : Zone) (hidx : z.zone_index = 2)
    (hm : z.current_mode ≠ some ("off")) :
    (∃ r1 : Zone,
      process_status_type_2 [z] ("H1A=1 D2=0\r") = .ok [r1]
        ∧ r1.is_damper_open = true ∧ r1.is_heating = true
        ∧ r1.current_action = some ("heating"))
    ∧ (∃ r0 : Zone,
      process_status_type_2 [z] ("H1A=0 D2=0\r") = .ok [r0]
        ∧ r0.is_damper_open = true ∧ r0.is_heating = false
        ∧ r0.current_action = some ("idle")) := by
  have hz : get_zone_by_index [z] 2 = some z := by
    simp [get_zone_by_index, hidx]
  have hupd : ∀ w : Zone, updateZone [z] 2 (fun _ => w) = [w] := by
    intro w; simp [updateZone, hidx]
  constructor
  · refine ⟨setCurrentAction (setIsDamperOpen (setIsHeating z true) true)
      ("heating"), ?_, ?_, ?_, ?_⟩
    · have ht : tokenize (lc ("H1A=1 D2=0\r"))
          = [lc ("H1A=1"), lc ("D2=0")] := by decide
      have s1 : processT2Aux [z] none [lc ("H1A=1"), lc ("D2=0")]
          = processT2Aux [z] (some true) [lc ("D2=0")] := rfl
      rw [process_status_type_2, ht, s1, damperStepD2 [z] z true [] hz hm]
      simp [hupd, processT2Aux]
    · rw [setCurrentAction_damper, setIsDamperOpen_damper]
    · rw [setCurrentAction_heating, setIsDamperOpen_heating, setIsHeating_heating]
    · rw [setCurrentAction_action]
  · refine ⟨setCurrentAction (setIsDamperOpen (setIsHeating z false) true)
      ("idle"), ?_, ?_, ?_, ?_⟩
    · have ht : tokenize (lc ("H1A=0 D2=0\r"))
          = [lc ("H1A=0"), lc ("D2=0")] := by decide
      have s1 : processT2Aux [z] none [lc ("H1A=0"), lc ("D2=0")]
          = processT2Aux [z] (some false) [lc ("D2=0")] := rfl
      rw [process_status_type_2, ht, s1, damperStepD2 [z] z false [] hz hm]
      simp [hupd, processT2Aux]
    · rw [setCurrentAction_damper, setIsDamperOpen_damper]
    · rw [setCurrentAction_heating, setIsDamperOpen_heating, setIsHeating_heating]
    · rw [setCurrentAction_action]

/-- Witness for claim C2's amended theorem at a concrete zone-2 state. -/
theorem type2_heat_damper_decode_witness :
    (({ zoneTwoFresh with current_mode := some ("heat") } : Zone).zone_index = 2)
    ∧ (({ zoneTwoFresh with current_mode := some ("heat") } : Zone).current_mode
        ≠ some ("off"))
    ∧ ((∃ r1 : Zone,
        process_status_type_2 [{ zoneTwoFresh with current_mode := some ("heat") }]
            ("H1A=1 D2=0\r") = .ok [r1]
          ∧ r1.is_damper_open = true ∧ r1.is_heating = true
          ∧ r1.current_action = some ("heating"))
      ∧ (∃ r0 : Zone,
        process_status_type_2 [{ zoneTwoFresh with current_mode := some ("heat") }]
            ("H1A=0 D2=0\r") = .ok [r0]
          ∧ r0.is_damper_open = true ∧ r0.is_heating = false
          ∧ r0.current_action = some ("idle"))) :=
  ⟨by decide, by decide,
    type2_heat_damper_decode { zoneTwoFresh with current_mode := some ("heat") }
      (by decide) (by decide)⟩

/-- Claim C3: each change-aware setter stores the new value and raises the
dirty flag exactly when the value differs from the stored one, and leaves
the zone entirely unchanged when it is equal. -/
theorem change_aware_setter_contract :
    (∀ (z : Zone) (v : ℚ),
        (z.current_temperature ≠ some v →
          setCurrentTemperature z v
            = { z with current_temperature := some v,
                       modified_since_last_sync := true })
        ∧ (z.current_temperature = some v → setCurrentTemperature z v = z))
    ∧ (∀ (z : Zone) (v : ℚ),
        (z.current_setpoint ≠ some v →
          setCurrentSetpoint z v
            = { z with current_setpoint := some v,
                       modified_since_last_sync := true })
        ∧ (z.current_setpoint = some v → setCurrentSetpoint z v = z))
    ∧ (∀ (z : Zone) (v : String),
        (z.current_mode ≠ some v →
          setCurrentMode z v
            = { z with current_mode := some v,
                       modified_since_last_sync := true })
        ∧ (z.current_mode = some v → setCurrentMode z v = z))
    ∧ (∀ (z : Zone) (v : String),
        (z.current_action ≠ some v →
          setCurrentAction z v
            = { z with current_action := some v,
                       modified_since_last_sync := true })
        ∧ (z.current_action = some v → setCurrentAction z v = z))
    ∧ (∀ (z : Zone) (v : Bool),
        (z.is_heating ≠ v →
          setIsHeating z v
            = { z with is_heating := v, modified_since_last_sync := true })
        ∧ (z.is_heating = v → setIsHeating z v = z))
    ∧ (∀ (z : Zone) (v : Bool),
        (z.is_damper_open ≠ v →
          setIsDamperOpen z v
            = { z with is_damper_open := v, modified_since_last_sync := true })
        ∧ (z.is_damper_open = v → setIsDamperOpen z v = z)) := by
  refine ⟨?_, ?_, ?_, ?_, ?_, ?_⟩ <;> intro z v <;> constructor <;> intro h
  · simp [setCurrentTemperature, h]
  · simp [setCurrentTemperature, h]
  · simp [setCurrentSetpoint, h]
  · simp [setCurrentSetpoint, h]
  · simp [setCurrentMode, h]
  · simp [setCurrentMode, h]
  · simp [setCurrentAction, h]
  · simp [setCurrentAction, h]
  · simp [setIsHeating, h]
  · simp [setIsHeating, h]
  · simp [setIsDamperOpen, h]
  · simp [setIsDamperOpen, h]

/-- Witness for claim C3 at a fresh zone: a differing value is stored and
marks the zone dirty; an equal value changes nothing. -/
theorem change_aware_setter_witness :
    (zoneTwoFresh.current_temperature ≠ some 71
      ∧ setCurrentTemperature zoneTwoFresh 71
          = { zoneTwoFresh with current_temperature := some 71,
                                modified_since_last_sync := true })
    ∧ (zoneTwoFresh.is_heating = false
      ∧ setIsHeating zoneTwoFresh false = zoneTwoFresh) :=
  ⟨⟨by decide, (change_aware_setter_contract.1 zoneTwoFresh 71).1 (by decide)⟩,
   ⟨by decide,
    (change_aware_setter_contract.2.2.2.2.1 zoneTwoFresh false).2 (by decide)⟩⟩

/-- Claim C4: evaluation of `set_mode`.  The wire record carries the
external mode word ("M=heat"), not the protocol letter ("M=H"): the source
computes `rcs_mode` from the map but interpolates `mode` into the command
string.  A mode outside the map sends nothing and leaves the registry
unchanged. -/
theorem set_mode_wire_word_divergence :
    (set_mode [zoneTwoFresh] ("zone_2") ("heat")).2 = some ("A=1 Z=2 M=heat")
    ∧ ("A=1 Z=2 M=heat" : String) ≠ "A=1 Z=2 M=H"
    ∧ (∀ (reg : Registry) (entity mode : String),
        MODE_MAP_MQTT2RCS.lookup mode = none →
        set_mode reg entity mode = (reg, none)) := by
  refine ⟨by decide, by decide, ?_⟩
  intro reg entity mode h
  simp [set_mode, h]

/-- Witness for claim C4's unrecognized-mode branch. -/
theorem set_mode_wire_word_witness :
    MODE_MAP_MQTT2RCS.lookup ("fan_only") = none
    ∧ set_mode [zoneTwoFresh] ("zone_2") ("fan_only") = ([zoneTwoFresh], none) :=
  ⟨by decide,
   set_mode_wire_word_divergence.2.2 [zoneTwoFresh] ("zone_2") ("fan_only")
     (by decide)⟩

/-- Claim C5: with `force = false` the publish step emits exactly the dirty
zones' payloads, clears exactly their dirty flags and leaves the other
zones untouched; with `force = true` it emits every zone's payload. -/
theorem publish_dirty_discipline (reg : Registry) :
    (publish_all_zone_status reg false).2
        = (reg.filter (fun z => z.modified_since_last_sync)).map statusEntry
      ∧ (publish_all_zone_status reg false).1
          = reg.map (fun z =>
              if z.modified_since_last_sync then
                { z with modified_since_last_sync := false }
              else z)
      ∧ (publish_all_zone_status reg true).2 = reg.map statusEntry
      ∧ (publish_all_zone_status reg true).1
          = reg.map (fun z => { z with modified_since_last_sync := false }) := by
  induction reg with
  | nil => simp [publish_all_zone_status]
  | cons z rest ih =>
    obtain ⟨h1, h2, h3, h4⟩ := ih
    by_cases hm : z.modified_since_last_sync <;>
      simp [publish_all_zone_status, hm, h1, h2, h3, h4]

/-- Claim C6: an out-of-range setpoint (below 40 or above 99) sends nothing
and leaves the registry untouched; an in-range setpoint for a known entity
is sent as `A=1 Z=<index> SP=<rounded>`. -/
theorem setpoint_range_guard :
    (∀ (reg : Registry) (entity : String) (v : ℚ),
        v < 40 ∨ 99 < v → set_setpoint reg entity v = (reg, none))
    ∧ (∀ (reg : Registry) (entity : String) (v : ℚ) (z : Zone),
        40 ≤ v → v ≤ 99 → get_zone_by_entity_name reg entity = some z →
        (set_setpoint reg entity v).2
          = some ("A=1 Z=" ++ String.mk (intToChars z.zone_index)
              ++ " SP=" ++ String.mk (intToChars (pyRound0 v)))) := by
  constructor
  · intro reg entity v h
    simp [set_setpoint, h]
  · intro reg entity v z h40 h99 hz
    have hcond : ¬ (v < 40 ∨ 99 < v) := by
      rintro (h | h) <;> linarith
    simp [set_setpoint, hcond, hz]

/-- Witness for claim C6: 39 and 100 are rejected with the registry
untouched, 99 is accepted and sent. -/
theorem setpoint_range_guard_witness :
    ((39 : ℚ) < 40 ∨ (99 : ℚ) < 39)
    ∧ set_setpoint [zoneTwoFresh] ("zone_2") 39 = ([zoneTwoFresh], none)
    ∧ ((100 : ℚ) < 40 ∨ (99 : ℚ) < 100)
    ∧ set_setpoint [zoneTwoFresh] ("zone_2") 100 = ([zoneTwoFresh], none)
    ∧ get_zone_by_entity_name [zoneTwoFresh] ("zone_2") = some zoneTwoFresh
    ∧ (set_setpoint [zoneTwoFresh] ("zone_2") 99).2
        = some ("A=1 Z=" ++ String.mk (intToChars zoneTwoFresh.zone_index)
            ++ " SP=" ++ String.mk (intToChars (pyRound0 99))) :=
  ⟨Or.inl (by norm_num),
   setpoint_range_guard.1 [zoneTwoFresh] ("zone_2") 39 (Or.inl (by norm_num)),
   Or.inr (by norm_num),
   setpoint_range_guard.1 [zoneTwoFresh] ("zone_2") 100 (Or.inr (by norm_num)),
   by decide,
   setpoint_range_guard.2 [zoneTwoFresh] ("zone_2") 99 zoneTwoFresh
     (by norm_num) (by norm_num) (by decide)⟩

/-- Claim C7, counterexample: a damper token ahead of any `H1A=` token does
not merely skip that token — it ends the whole Type 2 record, so the valid
`H1A=1 D1=0` tail is dropped and zone 1 stays untouched, while the same
tail alone does mutate zone 1. -/
theorem type2_break_counterexample :
    process_status_type_2 [mkZone ("Zone 1") 1] ("D1=0 H1A=1 D1=0\r")
        = .ok [mkZone ("Zone 1") 1]
      ∧ process_status_type_2 [mkZone ("Zone 1") 1] ("H1A=1 D1=0\r")
          = .ok [{ mkZone ("Zone 1") 1 with
              is_heating := true, is_damper_open := true,
              current_action := some ("heating"),
              modified_since_last_sync := true }]
      ∧ process_status_type_2 [mkZone ("Zone 1") 1] ("D1=0 H1A=1 D1=0\r")
          ≠ process_status_type_2 [mkZone ("Zone 1") 1] ("H1A=1 D1=0\r") := by
  decide

/-- Claim C7 (amended): a damper token before any heat-call context, a
heat-call value other than 0/1, and a damper value other than 0/1 are each
logged without mutating any zone, but every such branch ends with `break`,
so the rest of the Type 2 record is not processed. -/
theorem type2_bad_token_aborts_record :
    (∀ (reg : Registry) (p : List Char) (rest : List (List Char)),
        startsWithTok (lc ("H1A=")) p = false →
        startsWithTok (lc ("D")) p = true →
        processT2Aux reg none (p :: rest) = .ok reg)
    ∧ (∀ (reg : Registry) (hc : Option Bool) (p : List Char)
          (rest : List (List Char)) (n : Int),
        startsWithTok (lc ("H1A=")) p = true → parsePyInt (p.drop 4) = some n →
        n ≠ 0 → n ≠ 1 →
        processT2Aux reg hc (p :: rest) = .ok reg)
    ∧ (∀ (reg : Registry) (b : Bool) (p : List Char) (rest : List (List Char))
          (zi m : Int) (z : Zone),
        startsWithTok (lc ("H1A=")) p = false →
        startsWithTok (lc ("D")) p = true →
        parsePyInt ((p.drop 1).take 1) = some zi →
        get_zone_by_index reg zi = some z →
        parsePyInt (p.drop 3) = some m → m ≠ 0 → m ≠ 1 →
        processT2Aux reg (some b) (p :: rest) = .ok reg) := by
  refine ⟨?_, ?_, ?_⟩
  · intro reg p rest h1 h2
    simp [processT2Aux, h1, h2]
  · intro reg hc p rest n h1 h2 hn0 hn1
    simp [processT2Aux, h1, h2, hn0, hn1]
  · intro reg b p rest zi m z h1 h2 h3 h4 h5 hm0 hm1
    rw [List.drop_one] at h3
    simp [processT2Aux, h1, h2, h3, h4, h5, hm0, hm1]

/-- Witness for claim C7's amended theorem: each bad-token kind, followed by
a valid `H1A=1` token that is never reached, leaves the registry as it
was. -/
theorem type2_bad_token_aborts_witness :
    (startsWithTok (lc ("H1A=")) (lc ("D2=0")) = false
      ∧ startsWithTok (lc ("D")) (lc ("D2=0")) = true
      ∧ processT2Aux [zoneTwoFresh] none [lc ("D2=0"), lc ("H1A=1")]
          = .ok [zoneTwoFresh])
    ∧ (startsWithTok (lc ("H1A=")) (lc ("H1A=7")) = true
      ∧ parsePyInt ((lc ("H1A=7")).drop 4) = some 7
      ∧ processT2Aux [zoneTwoFresh] none [lc ("H1A=7"), lc ("H1A=1")]
          = .ok [zoneTwoFresh])
    ∧ (parsePyInt (((lc ("D2=9")).drop 1).take 1) = some 2
      ∧ get_zone_by_index [zoneTwoFresh] 2 = some zoneTwoFresh
      ∧ parsePyInt ((lc ("D2=9")).drop 3) = some 9
      ∧ processT2Aux [zoneTwoFresh] (some true) [lc ("D2=9"), lc ("H1A=1")]
          = .ok [zoneTwoFresh]) :=
  ⟨⟨by decide, by decide,
      type2_bad_token_aborts_record.1 [zoneTwoFresh] (lc ("D2=0"))
        [lc ("H1A=1")] (by decide) (by decide)⟩,
   ⟨by decide, by decide,
      type2_bad_token_aborts_record.2.1 [zoneTwoFresh] none (lc ("H1A=7"))
        [lc ("H1A=1")] 7 (by decide) (by decide) (by decide) (by decide)⟩,
   ⟨by decide, by decide, by decide,
      type2_bad_token_aborts_record.2.2 [zoneTwoFresh] true (lc ("D2=9"))
        [lc ("H1A=1")] 2 9 zoneTwoFresh (by decide) (by decide) (by decide)
        (by decide) (by decide) (by decide) (by decide)⟩⟩

/-- Claim C8: the two status requests are carriage-return terminated, but
the outbound set-setpoint and set-mode command records are written with no
terminator at all. -/
theorem record_cr_termination_divergence :
    statusRequest1 = "A=1 R=1\r" ∧ statusRequest2 = "A=1 R=2\r"
      ∧ endsWithCR statusRequest1 = true ∧ endsWithCR statusRequest2 = true
      ∧ (set_setpoint [zoneTwoFresh] ("zone_2") 70).2 = some ("A=1 Z=2 SP=70")
      ∧ endsWithCR ("A=1 Z=2 SP=70") = false
      ∧ (set_mode [zoneTwoFresh] ("zone_2") ("heat")).2
          = some ("A=1 Z=2 M=heat")
      ∧ endsWithCR ("A=1 Z=2 M=heat") = false := by
  decide

/-- Claim C9: non-numeric text after the `Z=`, `H1A=` or `D<digit>=`
prefixes is fed to `int()` with no guard, so the decoders raise `ValueError`
instead of taking a logged error branch; the exception escapes to the
control loop and ends it. -/
theorem decoder_valueerror_evaluation :
    process_status_type_1 [zoneTwoFresh] ("Z=x\r") = .error ("ValueError")
      ∧ process_status_type_2 [zoneTwoFresh] ("H1A=x\r")
          = .error ("ValueError")
      ∧ process_status_type_2 [zoneTwoFresh] ("H1A=1 D2=x\r")
          = .error ("ValueError")
      ∧ process_status_type_2 [zoneTwoFresh] ("H1A=1 Dx=0\r")
          = .error ("ValueError") := by
  decide

/-- Claim C10: an accepted setpoint is sent rounded to an integer string
(`SP=<v rounded>`) while the registry stores the exact value, so for every
non-integer in-range setpoint the stored value differs from the value put
on the wire. -/
theorem setpoint_round_vs_store (reg : Registry) (entity : String) (v : ℚ)
    (z : Zone) (h40 : 40 ≤ v) (h99 : v ≤ 99)
    (hz : get_zone_by_entity_name reg entity = some z)
    (hni : ¬ ∃ n : ℤ, v = (n : ℚ)) :
    (set_setpoint reg entity v).2
        = some ("A=1 Z=" ++ String.mk (intToChars z.zone_index)
            ++ " SP=" ++ String.mk (intToChars (pyRound0 v)))
      ∧ (set_setpoint reg entity v).1
          = updateZone reg z.zone_index (fun w => setCurrentSetpoint w v)
      ∧ (∀ w : Zone, (setCurrentSetpoint w v).current_setpoint = some v)
      ∧ ((pyRound0 v : Int) : ℚ) ≠ v := by
  have hcond : ¬ (v < 40 ∨ 99 < v) := by rintro (h | h) <;> linarith
  refine ⟨?_, ?_, ?_, ?_⟩
  · simp [set_setpoint, hcond, hz]
  · simp [set_setpoint, hcond, hz]
  · intro w
    simp only [setCurrentSetpoint]; split <;> simp_all
  · intro heq
    exact hni ⟨pyRound0 v, heq.symm⟩

/-- Witness for claim C10 at the non-integer setpoint 72.5 = 145/2. -/
theorem setpoint_round_vs_store_witness :
    ((40 : ℚ) ≤ 145 / 2) ∧ ((145 / 2 : ℚ) ≤ 99)
    ∧ get_zone_by_entity_name [zoneTwoFresh] ("zone_2") = some zoneTwoFresh
    ∧ (¬ ∃ n : ℤ, (145 / 2 : ℚ) = (n : ℚ))
    ∧ ((set_setpoint [zoneTwoFresh] ("zone_2") (145 / 2)).2
        = some ("A=1 Z=" ++ String.mk (intToChars zoneTwoFresh.zone_index)
            ++ " SP=" ++ String.mk (intToChars (pyRound0 (145 / 2))))
      ∧ (set_setpoint [zoneTwoFresh] ("zone_2") (145 / 2)).1
          = updateZone [zoneTwoFresh] zoneTwoFresh.zone_index
              (fun w => setCurrentSetpoint w (145 / 2))
      ∧ (∀ w : Zone, (setCurrentSetpoint w (145 / 2)).current_setpoint
          = some (145 / 2))
      ∧ ((pyRound0 (145 / 2) : Int) : ℚ) ≠ 145 / 2) := by
  have hni : ¬ ∃ n : ℤ, (145 / 2 : ℚ) = (n : ℚ) := by
    rintro ⟨n, hn⟩
    rw [div_eq_iff (by norm_num)] at hn
    have h2 : (145 : ℤ) = n * 2 := by exact_mod_cast hn
    omega
  exact ⟨by norm_num, by norm_num, by decide, hni,
    setpoint_round_vs_store [zoneTwoFresh] ("zone_2") (145 / 2) zoneTwoFresh
      (by norm_num) (by norm_num) (by decide) hni⟩
